import Mathlib

/-!
Shallow embedding of the ARCH-REPO browser client.

The repository holds four near-duplicate variants of the same single-page
client:
  - variant VA : src/arch-web-app/frontend/main.js lines 1-154
      (validated run, error-handled poll, guarded exports);
  - variant VB : src/arch-web-app/frontend/main.js lines 155-211
      (no validation, no ok checks, no catch);
  - variant VC : src/arch-web-app/frontend/main.js lines 212-222
      (run only, displays the job id);
  - variant P000 : src/unnamed/part_000
      (JSON-body submit, polls the result endpoint, exports currentDot).

Browser and network effects are made explicit: a fetch outcome is passed
in as data, DOM writes become fields of a state record, downloads become
values, and the external Viz renderer is a function parameter.
-/

namespace ArchRepo

/-- An SVG DOM element, identified by its XML serialization: both
element.outerHTML and XMLSerializer().serializeToString(element) produce
this serialization, and two elements are visibly equal when it agrees. -/
structure Svg where
  outerHTML : String
deriving DecidableEq

/-- XMLSerializer().serializeToString on an SVG element: the element's
XML serialization, i.e. its outerHTML (main.js line 117). -/
def serializeToString (s : Svg) : String :=
  s.outerHTML

/-- A request body. The only body built anywhere in the sources is
JSON.stringify(\x7b repo_url: repo \x7d) in part_000 lines 11-12; the JSON
layer is modelled structurally. -/
inductive ReqBody
  | jsonRepoUrl (repo : String)
deriving DecidableEq

/-- An HTTP request as issued by fetch: method, URL, optional body. -/
structure Request where
  method : String
  url : String
  reqBody : Option ReqBody
deriving DecidableEq

/-- A response body as the client consumes it. res.json() succeeds on the
json constructors and rejects on text; res.text() yields the raw text. -/
inductive Body
  | jsonJob (jobId : String)
  | jsonStatus (ready : Bool)
  | text (s : String)
deriving DecidableEq

/-- The outcome of one fetch: a network failure (the promise rejects), or
a response with an ok flag, an HTTP status code and a body. -/
inductive FetchOutcome
  | netError
  | resp (ok : Bool) (code : Nat) (body : Body)
deriving DecidableEq

/-- What the run function does after its own code finishes: return
normally, hand a job id to poll, or die on an unhandled rejection. -/
inductive RunNext
  | done
  | startPoll (job : String)
  | crashed
deriving DecidableEq

/-- The observable result of one run invocation: the alert shown (if
any), the requests issued, the last text written to the status element
by run itself (none when run never wrote it), and the continuation. -/
structure RunResult where
  alertMsg : Option String
  requests : List Request
  statusText : Option String
  next : RunNext
deriving DecidableEq

/-- What one poll iteration schedules next: a retry after ms
milliseconds via setTimeout, or the ready path render. -/
inductive PollAction
  | retry (ms : Nat)
  | renderNow
deriving DecidableEq

/-- The observable result of one poll iteration: the last status-element
write of the iteration and the scheduled continuation. -/
structure PollStepResult where
  statusText : Option String
  action : PollAction
deriving DecidableEq

/-- Outcome of the GET of /result/<job>/dot as render consumes it:
the catch-all failure (network error or non-ok response), or the dot
text (res.text() cannot fail on a received response). -/
inductive DotFetch
  | failed
  | okDot (dot : String)
deriving DecidableEq

/-- A file download handed to the browser: blob content, download
attribute, blob MIME type. -/
structure Download where
  content : String
  filename : String
  mime : String
deriving DecidableEq

/-- The DOM state of variant VA: the module-level currentSVG
(main.js line 8), the children of the diagram container, the text of the
status element, and the children of document.body (save appends and
removes an anchor there). -/
structure AppState where
  currentSVG : Option Svg
  diagram : List Svg
  statusText : String
  domBody : List String
deriving DecidableEq

/-- The state of variant P000: the module-level currentDot
(part_000 line 3), the diagram children and the status text. -/
structure P000State where
  currentDot : String
  statusText : String
  diagram : List Svg
deriving DecidableEq

/-- The page as first loaded in variant P000: currentDot is the empty
string, nothing rendered. -/
def p000Init : P000State :=
  ⟨"", "", []⟩

/-- ECMA-262 encodeURIComponent leaves these byte values verbatim:
A-Z, a-z, 0-9 and - _ . ! ~ * apostrophe ( ) . -/
def isUnreservedByte (b : Nat) : Bool :=
  (65 ≤ b && b ≤ 90) || (97 ≤ b && b ≤ 122) || (48 ≤ b && b ≤ 57) ||
  b == 45 || b == 95 || b == 46 || b == 33 || b == 126 || b == 42 ||
  b == 39 || b == 40 || b == 41

/-- Upper-case hexadecimal digit of a value below 16. -/
def hexDigit (n : Nat) : Char :=
  if n < 10 then Char.ofNat (48 + n) else Char.ofNat (55 + n)

/-- Percent-encoding of one byte, upper-case hex as encodeURIComponent
produces. -/
def pctByte (b : Nat) : String :=
  String.mk [Char.ofNat 37, hexDigit (b / 16), hexDigit (b % 16)]

/-- UTF-8 bytes of one code point. -/
def utf8Bytes (c : Char) : List Nat :=
  let n := c.toNat
  if n < 128 then [n]
  else if n < 2048 then [192 + n / 64, 128 + n % 64]
  else if n < 65536 then [224 + n / 4096, 128 + (n / 64) % 64, 128 + n % 64]
  else [240 + n / 262144, 128 + (n / 4096) % 64, 128 + (n / 64) % 64, 128 + n % 64]

/-- The browser built-in encodeURIComponent: percent-encode every UTF-8
byte outside the unreserved set. -/
def encodeURIComponent (s : String) : String :=
  String.join ((s.data.flatMap utf8Bytes).map
    (fun b => if isUnreservedByte b then String.mk [Char.ofNat b] else pctByte b))

/-- A whitespace character as String.prototype.trim removes it (space,
tab, line and form feeds, carriage return, vertical tab). -/
def jsIsSpace (c : Char) : Bool :=
  c == ' ' || c == '\t' || c == '\n' || c == '\r' ||
  c == Char.ofNat 12 || c == Char.ofNat 11

/-- The JavaScript String.prototype.trim: strip whitespace from both
ends (main.js line 14 applies it to the input field's value). -/
def jsTrim (s : String) : String :=
  String.mk (((s.data.dropWhile jsIsSpace).reverse.dropWhile jsIsSpace).reverse)

/-- Backend base URL of variant VA (main.js line 4). -/
def API_BASE : String :=
  "https://arch-repoo.onrender.com"

/-- Backend base URL of variant VC (main.js line 212). -/
def API_C : String :=
  "https://arch-repo.onrender.com"

/-- Backend base URL of variant P000 (part_000 line 1). -/
def RENDER_URL : String :=
  "https://arch-repoo.onrender.com"

namespace VA

/-- Variant VA run (main.js lines 13-41). The input field's value is
trimmed; an empty result alerts and returns before any fetch. Otherwise
the status element is set, one POST /run?repo_url=<encoded> is issued,
a non-ok response or a rejected fetch or json() lands in the catch that
writes the failure message, and a parsed job_id is handed to poll. -/
def run (repo : String) (r : FetchOutcome) : RunResult :=
  let t := jsTrim repo
  if t = "" then
    ⟨some "Please enter a repository URL", [], none, .done⟩
  else
    let req : Request :=
      ⟨"POST", API_BASE ++ "/run?repo_url=" ++ encodeURIComponent t, none⟩
    match r with
    | .netError =>
        ⟨none, [req], some "Failed to connect to backend.", .done⟩
    | .resp ok _ body =>
        if ok then
          match body with
          | .jsonJob j =>
              ⟨none, [req], some "Waking up server (may take ~30 seconds)...",
                .startPoll j⟩
          | .jsonStatus _ =>
              ⟨none, [req], some "Waking up server (may take ~30 seconds)...",
                .startPoll "undefined"⟩
          | .text _ =>
              ⟨none, [req], some "Failed to connect to backend.", .done⟩
        else
          ⟨none, [req], some "Failed to connect to backend.", .done⟩

/-- Variant VA poll, one iteration (main.js lines 46-70). A rejected
fetch, a non-ok response or a json() failure is caught: the status shows
a waiting message and the same poll is rescheduled after 3000 ms. A
not-ready status reschedules after 2000 ms; a ready one goes to render. -/
def pollStep (r : FetchOutcome) : PollStepResult :=
  match r with
  | .netError =>
      ⟨some "Waiting for backend...", .retry 3000⟩
  | .resp ok _ body =>
      if ok then
        match body with
        | .jsonStatus ready =>
            if ready then ⟨some "Rendering diagram...", .renderNow⟩
            else ⟨some "Running pipeline...", .retry 2000⟩
        | .jsonJob _ =>
            ⟨some "Running pipeline...", .retry 2000⟩
        | .text _ =>
            ⟨some "Waiting for backend...", .retry 3000⟩
      else
        ⟨some "Waiting for backend...", .retry 3000⟩

/-- The number of render invocations of the VA poll loop over a finite
list of successive status-fetch outcomes: each retry consumes the next
outcome, render ends the loop (render never re-enters poll). -/
def pollRenderCount : List FetchOutcome → Nat
  | [] => 0
  | r :: rest =>
      match (pollStep r).action with
      | .renderNow => 1
      | .retry _ => pollRenderCount rest

/-- Variant VA render (main.js lines 75-95), with the external renderer
viz.renderSVGElement as a parameter f (an error value carries the
message). A failed dot fetch or a renderer rejection lands in the catch
that writes the failure message; on success currentSVG is reassigned,
the container is cleared and the new element appended, and the status
shows done. -/
def render (f : String → Except String Svg) (r : DotFetch)
    (st : AppState) : AppState :=
  match r with
  | .failed =>
      { st with statusText := "Graphviz render failed." }
  | .okDot dot =>
      match f dot with
      | .error _ =>
          { st with statusText := "Graphviz render failed." }
      | .ok svg =>
          { st with currentSVG := some svg, diagram := [svg],
                    statusText := "Done ✅" }

/-- Variant VA save (main.js lines 147-154): an anchor is appended to
document.body, clicked (producing the download), and removed again. -/
def save (st : AppState) (content filename mime : String) :
    AppState × Download :=
  let withAnchor := st.domBody ++ ["a"]
  let d : Download := ⟨content, filename, mime⟩
  ({ st with domBody := withAnchor.dropLast }, d)

/-- Variant VA downloadSVG (main.js lines 100-108): nothing happens
while currentSVG is null; otherwise a blob holding
currentSVG.outerHTML is saved as architecture.svg. -/
def downloadSVG (st : AppState) : AppState × Option Download :=
  match st.currentSVG with
  | none => (st, none)
  | some svg =>
      let p := save st svg.outerHTML "architecture.svg"
        "image/svg+xml;charset=utf-8"
      (p.1, some p.2)

/-- Variant VA downloadPNG (main.js lines 113-142): nothing happens
while currentSVG is null; otherwise the element is serialized, the
parameter raster stands for the image-load, canvas-draw and toBlob
rasterization, and the PNG blob is saved. -/
def downloadPNG (raster : String → String) (st : AppState) :
    AppState × Option Download :=
  match st.currentSVG with
  | none => (st, none)
  | some svg =>
      let svgData := serializeToString svg
      let p := save st (raster svgData) "architecture.png" "image/png"
      (p.1, some p.2)

end VA

namespace VB

/-- Variant VB run (main.js lines 158-167). No validation and no trim:
the status element is set and the POST issued whatever the field holds.
There is no ok check and no catch, so a rejected fetch or a non-JSON
body kills the async function with the status text left in place; a
parsed body hands data.job_id to poll (the interpolation of an absent
job_id reads undefined). -/
def run (repo : String) (r : FetchOutcome) : RunResult :=
  let req : Request :=
    ⟨"POST", "/run?repo_url=" ++ encodeURIComponent repo, none⟩
  match r with
  | .netError =>
      ⟨none, [req], some "Running pipeline...", .crashed⟩
  | .resp _ _ (.jsonJob j) =>
      ⟨none, [req], some "Running pipeline...", .startPoll j⟩
  | .resp _ _ (.jsonStatus _) =>
      ⟨none, [req], some "Running pipeline...", .startPoll "undefined"⟩
  | .resp _ _ (.text _) =>
      ⟨none, [req], some "Running pipeline...", .crashed⟩

/-- Variant VB poll, one iteration (main.js lines 169-177). There is no
catch: a rejected fetch or json() propagates out of the loop (error
value), so no retry is scheduled there. The ok flag is never read; a
parsed body without a true ready field reschedules after 2000 ms, a
ready one goes to render. -/
def pollStep (r : FetchOutcome) : Except Unit PollStepResult :=
  match r with
  | .netError => .error ()
  | .resp _ _ (.jsonStatus ready) =>
      if ready then .ok ⟨some "Rendering diagram...", .renderNow⟩
      else .ok ⟨none, .retry 2000⟩
  | .resp _ _ (.jsonJob _) =>
      .ok ⟨none, .retry 2000⟩
  | .resp _ _ (.text _) => .error ()

/-- The number of render invocations of the VB poll loop over a finite
list of status-fetch outcomes; none when an unhandled rejection killed
the loop first. -/
def pollRenderCount : List FetchOutcome → Option Nat
  | [] => some 0
  | r :: rest =>
      match pollStep r with
      | .error _ => none
      | .ok s =>
          match s.action with
          | .renderNow => some 1
          | .retry _ => pollRenderCount rest

/-- Variant VB downloadSVG (main.js lines 186-189). There is no guard:
with currentSVG still null, reading null.outerHTML throws a TypeError
(error value) before any blob is built, so no download happens; with an
element present its serialization is saved as architecture.svg. -/
def downloadSVG (cur : Option Svg) : Except Unit Download :=
  match cur with
  | none => .error ()
  | some svg => .ok ⟨svg.outerHTML, "architecture.svg", "image/svg+xml"⟩

end VB

namespace VC

/-- Variant VC run (main.js lines 214-222): one POST with the encoded
repo in the query, then the parsed job_id is written to the out element.
No validation, no ok check, no catch. -/
def run (repo : String) (r : FetchOutcome) : RunResult :=
  let req : Request :=
    ⟨"POST", API_C ++ "/run?repo_url=" ++ encodeURIComponent repo, none⟩
  match r with
  | .netError => ⟨none, [req], none, .crashed⟩
  | .resp _ _ (.jsonJob j) =>
      ⟨none, [req], some ("Job ID: " ++ j), .done⟩
  | .resp _ _ (.jsonStatus _) =>
      ⟨none, [req], some "Job ID: undefined", .done⟩
  | .resp _ _ (.text _) => ⟨none, [req], none, .crashed⟩

end VC

namespace P000

/-- Variant P000 run (part_000 lines 5-19). No validation: the status is
set and POST /run is issued with the repo URL inside a JSON body, not in
the query. No ok check and no catch; a parsed body hands job_id to poll. -/
def run (repo : String) (r : FetchOutcome) : RunResult :=
  let req : Request :=
    ⟨"POST", RENDER_URL ++ "/run", some (.jsonRepoUrl repo)⟩
  match r with
  | .netError =>
      ⟨none, [req], some "Running pipeline...", .crashed⟩
  | .resp _ _ (.jsonJob j) =>
      ⟨none, [req], some "Running pipeline...", .startPoll j⟩
  | .resp _ _ (.jsonStatus _) =>
      ⟨none, [req], some "Running pipeline...", .startPoll "undefined"⟩
  | .resp _ _ (.text _) =>
      ⟨none, [req], some "Running pipeline...", .crashed⟩

/-- Variant P000 renderDot (part_000 lines 35-46), renderer as parameter
f: on success the container is cleared and the new element appended; on
a renderer rejection the status element shows err.toString(). -/
def renderDot (f : String → Except String Svg) (dot : String)
    (st : P000State) : P000State :=
  match f dot with
  | .ok svg => { st with diagram := [svg] }
  | .error e => { st with statusText := e }

/-- Variant P000 poll, the iteration that receives an ok result response
(part_000 lines 21-33): currentDot is overwritten with the fetched text,
renderDot is started on it, and the status is set to done. renderDot's
promise settles after that status write, so its error branch may
overwrite it; the record below is the eventual state. -/
def pollStepOk (f : String → Except String Svg) (dot : String)
    (st : P000State) : P000State :=
  renderDot f dot { st with currentDot := dot, statusText := "Done ✅" }

/-- The number of renderDot invocations of the P000 poll loop over a
finite list of result-fetch outcomes: a non-ok response reschedules the
poll after 2000 ms, the first ok response renders and ends the loop. -/
def pollRenderCount : List DotFetch → Nat
  | [] => 0
  | .failed :: rest => pollRenderCount rest
  | .okDot _ :: _ => 1

/-- Variant P000 downloadSVG (part_000 lines 48-51). There is no guard:
a blob holding currentDot — the raw graph-description text, not a
serialized SVG element — is always built and downloaded as
architecture.svg with an SVG MIME type. The some wrapper matches the
guarded variants, where none means no download was triggered. -/
def downloadSVG (st : P000State) : Option Download :=
  some ⟨st.currentDot, "architecture.svg", "image/svg+xml"⟩

end P000

/-- The kinds of client action relevant to the readiness invariant:
a status GET, a GET of the graph-description result, a render. -/
inductive Act
  | statusGet
  | resultGet
  | render
deriving DecidableEq

/-- A trace event: the action together with whether the backend job was
already ready at the moment the action happened. -/
structure TEv where
  act : Act
  jobReady : Bool
deriving DecidableEq

/-- Action trace of the VA poll loop (main.js lines 46-70 and 75-95)
against a backend whose job becomes ready after k more status polls and
stays ready: while k is positive the status GET finds the job not ready
and the loop retries; at k = 0 the status GET reports ready, and only
then render fetches the result and renders. -/
def pollTraceVA : Nat → List TEv
  | 0 => [⟨.statusGet, true⟩, ⟨.resultGet, true⟩, ⟨.render, true⟩]
  | k + 1 => ⟨.statusGet, false⟩ :: pollTraceVA k

/-- Action trace of the P000 poll loop (part_000 lines 21-33) against a
backend whose job becomes ready after k more polls: every iteration
issues the result GET itself — before readiness it comes back non-ok
and the loop retries; once ready the fetched text is rendered. -/
def pollTraceP000 : Nat → List TEv
  | 0 => [⟨.resultGet, true⟩, ⟨.render, true⟩]
  | k + 1 => ⟨.resultGet, false⟩ :: pollTraceP000 k

/-- C1: in variant P000, after a successful pipeline on the graph
description digraph \x7b a -> b \x7d, the vector export downloads the raw
graph-description text itself — whatever the renderer produced — and
not the serialization of the rendered SVG element. -/
theorem c1_p000_vector_export_is_raw_dot (f : String → Except String Svg) :
    P000.downloadSVG (P000.pollStepOk f "digraph \x7b a -> b \x7d" p000Init)
      = some ⟨"digraph \x7b a -> b \x7d", "architecture.svg", "image/svg+xml"⟩ := by
  unfold P000.downloadSVG P000.pollStepOk P000.renderDot
  rcases hf : f "digraph \x7b a -> b \x7d" with e | svg <;> simp [hf]

/-- C2 (amended): in the validating run variant VA, a repository URL that
is empty after trimming leads to the alert and an immediate return: no
request is issued and the status element is never written. -/
theorem c2_empty_url_no_request (repo : String) (r : FetchOutcome)
    (h : jsTrim repo = "") :
    VA.run repo r = ⟨some "Please enter a repository URL", [], none, .done⟩ := by
  unfold VA.run
  simp [h]

/-- C2 witness: a whitespace-only URL trims to empty and produces the
alert with no request in variant VA. -/
theorem c2_witness :
    VA.run "   " FetchOutcome.netError
      = ⟨some "Please enter a repository URL", [], none, .done⟩ :=
  c2_empty_url_no_request "   " FetchOutcome.netError (by decide)

/-- C2 counterexample: the run of variant VB issues the POST even when
the repository field is empty, refuting the claim for that variant. -/
theorem c2_counterexample_vb_empty_url_fetches :
    (VB.run "" FetchOutcome.netError).requests
      = [⟨"POST", "/run?repo_url=", none⟩] := by
  decide

/-- C3 (amended): in the error-handling run variant VA, a non-ok
response to the submit POST (any code, any body) lands in the catch,
which writes the failure message to the status element. -/
theorem c3_run_error_state (repo : String) (code : Nat) (b : Body)
    (h : jsTrim repo ≠ "") :
    (VA.run repo (.resp false code b)).statusText
      = some "Failed to connect to backend." := by
  unfold VA.run
  simp [h]

/-- C3 witness: a 500 response with a plain-text body to a submission of
a concrete URL yields the visible failure message in variant VA. -/
theorem c3_witness :
    (VA.run "https://a.example/r"
        (FetchOutcome.resp false 500 (Body.text "Internal Server Error"))).statusText
      = some "Failed to connect to backend." :=
  c3_run_error_state "https://a.example/r" 500 (Body.text "Internal Server Error")
    (by decide)

/-- C3 counterexample: in variant VB a 500 response leaves the status
element at the text run itself wrote before the request and kills the
async function with an unhandled rejection: no error message is shown. -/
theorem c3_counterexample_vb_500_keeps_prior_status :
    VB.run "https://a.example/r"
        (FetchOutcome.resp false 500 (Body.text "Internal Server Error"))
      = ⟨none,
         [⟨"POST", "/run?repo_url=" ++ encodeURIComponent "https://a.example/r",
           none⟩],
         some "Running pipeline...", .crashed⟩ := by
  decide

/-- C4: against a backend that answers not-ready n times and then ready,
the poll loop of every variant terminates with exactly one render: VA
and VB consume status responses, P000 consumes result responses whose
first ok outcome carries the dot text d. -/
theorem c4_poll_terminates_renders_once (n : Nat) (d : String) :
    VA.pollRenderCount (List.replicate n (.resp true 200 (.jsonStatus false))
        ++ [.resp true 200 (.jsonStatus true)]) = 1
    ∧ VB.pollRenderCount (List.replicate n (.resp true 200 (.jsonStatus false))
        ++ [.resp true 200 (.jsonStatus true)]) = some 1
    ∧ P000.pollRenderCount (List.replicate n .failed ++ [.okDot d]) = 1 := by
  induction n with
  | zero => exact ⟨rfl, rfl, rfl⟩
  | succ k ih =>
      obtain ⟨h1, h2, h3⟩ := ih
      refine ⟨?_, ?_, ?_⟩
      · simpa [List.replicate_succ, VA.pollRenderCount, VA.pollStep] using h1
      · simpa [List.replicate_succ, VB.pollRenderCount, VB.pollStep] using h2
      · simpa [List.replicate_succ, P000.pollRenderCount] using h3

/-- C5 (amended): before any successful render, the exports of the
main.js variants produce no file: variant VA returns before building a
blob in both exports, and variant VB throws on the null current image
before any download. -/
theorem c5_export_before_render_noop (st : AppState)
    (raster : String → String) (h : st.currentSVG = none) :
    (VA.downloadSVG st).2 = none
    ∧ (VA.downloadPNG raster st).2 = none
    ∧ VB.downloadSVG none = Except.error () := by
  unfold VA.downloadSVG VA.downloadPNG VB.downloadSVG
  simp [h]

/-- C5 witness: on the freshly loaded page of variant VA neither export
produces a download. -/
theorem c5_witness :
    (VA.downloadSVG ⟨none, [], "", []⟩).2 = none
    ∧ (VA.downloadPNG id ⟨none, [], "", []⟩).2 = none :=
  ⟨(c5_export_before_render_noop ⟨none, [], "", []⟩ id rfl).1,
   (c5_export_before_render_noop ⟨none, [], "", []⟩ id rfl).2.1⟩

/-- C5 counterexample: in variant P000, invoking downloadSVG on the
freshly loaded page, before any render, does trigger a download — a
file holding the empty graph-description string — refuting the claim
that exporting before a render produces no file. -/
theorem c5_counterexample_p000_download_before_render :
    P000.downloadSVG p000Init
      = some ⟨"", "architecture.svg", "image/svg+xml"⟩ := rfl

/-- C6 (amended): in the error-handling poll variant VA, a failed status
request — a rejected fetch or a non-ok response of any code and body —
is swallowed by the catch: a waiting message is shown and the same poll
is rescheduled after the fixed 3000 ms delay; a well-formed not-ready
response reschedules after the fixed 2000 ms delay. -/
theorem c6_poll_failure_swallowed_and_retried :
    VA.pollStep .netError = ⟨some "Waiting for backend...", .retry 3000⟩
    ∧ (∀ code b, VA.pollStep (.resp false code b)
        = ⟨some "Waiting for backend...", .retry 3000⟩)
    ∧ (∀ code, VA.pollStep (.resp true code (.jsonStatus false))
        = ⟨some "Running pipeline...", .retry 2000⟩) := by
  refine ⟨rfl, fun code b => ?_, fun code => rfl⟩
  cases b <;> rfl

/-- C6 counterexample: in the minimal poll variant VB a network error
during the status request is not swallowed: the rejection propagates out
of the loop and no retry is scheduled, refuting the claim for that
variant. -/
theorem c6_counterexample_vb_neterror_kills_poll :
    VB.pollStep FetchOutcome.netError = Except.error () := rfl

/-- C7 (amended): against a backend that becomes ready after k polls,
every result fetch and every render of the VA loop happens with the job
already ready, and the render of the P000 loop happens with the job
already ready (its result GETs, by contrast, double as the readiness
probe). -/
theorem c7_render_only_from_ready_job :
    (∀ k, ∀ e ∈ pollTraceVA k,
        (e.act = Act.resultGet ∨ e.act = Act.render) → e.jobReady = true)
    ∧ (∀ k, ∀ e ∈ pollTraceP000 k,
        e.act = Act.render → e.jobReady = true) := by
  constructor
  · intro k
    induction k with
    | zero =>
        intro e he _
        fin_cases he <;> rfl
    | succ m ih =>
        intro e he hact
        rcases List.mem_cons.mp he with h | h
        · subst h
          rcases hact with h2 | h2 <;> simp_all
        · exact ih e h hact
  · intro k
    induction k with
    | zero =>
        intro e he _
        fin_cases he <;> rfl
    | succ m ih =>
        intro e he hact
        rcases List.mem_cons.mp he with h | h
        · subst h
          simp_all
        · exact ih e h hact

/-- C7 witness: the render event of a run that needed one extra poll is
in the P000 trace and indeed happens with the job ready. -/
theorem c7_witness :
    (TEv.mk Act.render true) ∈ pollTraceP000 1
    ∧ (TEv.mk Act.render true).jobReady = true :=
  ⟨by decide,
   c7_render_only_from_ready_job.2 1 (TEv.mk Act.render true) (by decide) rfl⟩

/-- C7 counterexample: in the P000 loop the very first action of a run
whose job is not yet ready is already a GET of the graph-description
result — a result fetch strictly before the backend reported readiness,
refuting the claim for that variant. -/
theorem c7_counterexample_p000_result_get_before_ready :
    (TEv.mk Act.resultGet false) ∈ pollTraceP000 1 := by decide

/-- C8: rendering the same graph description twice yields the same
visible state as rendering it once — in variant VA (same dot-fetch
outcome, same renderer) and in variant P000's renderDot — because the
container is cleared before the new element is appended and the stored
image is simply reassigned. -/
theorem c8_render_idempotent (f : String → Except String Svg) (r : DotFetch)
    (st : AppState) (g : String → Except String Svg) (d : String)
    (q : P000State) :
    VA.render f r (VA.render f r st) = VA.render f r st
    ∧ P000.renderDot g d (P000.renderDot g d q) = P000.renderDot g d q := by
  constructor
  · cases r with
    | failed => rfl
    | okDot dot =>
        unfold VA.render
        rcases hf : f dot with e | svg <;> simp [hf]
  · unfold P000.renderDot
    rcases hg : g d with e | svg <;> simp [hg]

/-- C9 (amended): with a non-empty trimmed URL, the run of variant VA
issues exactly one POST whose URL carries the encoded repository URL as
the repo_url query parameter and whose body is empty, and reads job_id
from the parsed JSON response; the runs of variants VB and VC issue the
same single query-parameter POST shape for every input. -/
theorem c9_run_request_shape (repo : String) (h : jsTrim repo ≠ "") :
    (∀ r, (VA.run repo r).requests
        = [⟨"POST", API_BASE ++ "/run?repo_url="
              ++ encodeURIComponent (jsTrim repo), none⟩])
    ∧ (∀ code j, (VA.run repo (.resp true code (.jsonJob j))).next
        = .startPoll j)
    ∧ (∀ u : String, ∀ r, (VB.run u r).requests
        = [⟨"POST", "/run?repo_url=" ++ encodeURIComponent u, none⟩])
    ∧ (∀ u : String, ∀ r, (VC.run u r).requests
        = [⟨"POST", API_C ++ "/run?repo_url=" ++ encodeURIComponent u, none⟩]) := by
  refine ⟨fun r => ?_, fun code j => ?_, fun u r => ?_, fun u r => ?_⟩
  · rcases r with _ | ⟨ok, code, b⟩
    · simp [VA.run, h]
    · cases ok <;> cases b <;> simp [VA.run, h]
  · simp [VA.run, h]
  · rcases r with _ | ⟨ok, code, b⟩
    · rfl
    · cases b <;> rfl
  · rcases r with _ | ⟨ok, code, b⟩
    · rfl
    · cases b <;> rfl

/-- C9 witness: submitting a concrete repository URL in variant VA
issues the single query-parameter POST and hands the returned job id to
poll. -/
theorem c9_witness :
    (VA.run "https://github.com/a/b" FetchOutcome.netError).requests
      = [⟨"POST", API_BASE ++ "/run?repo_url="
            ++ encodeURIComponent (jsTrim "https://github.com/a/b"), none⟩]
    ∧ (VA.run "https://github.com/a/b"
          (FetchOutcome.resp true 200 (Body.jsonJob "j1"))).next
      = RunNext.startPoll "j1" :=
  ⟨(c9_run_request_shape "https://github.com/a/b" (by decide)).1
      FetchOutcome.netError,
   (c9_run_request_shape "https://github.com/a/b" (by decide)).2.1 200 "j1"⟩

/-- C9 counterexample: the run of variant P000 sends the repository URL
inside a JSON request body to a bare POST /run with no repo_url query
parameter, refuting the claimed request shape for that variant. -/
theorem c9_counterexample_p000_body_not_query :
    (P000.run "https://github.com/a/b" FetchOutcome.netError).requests
      = [⟨"POST", "https://arch-repoo.onrender.com/run",
          some (ReqBody.jsonRepoUrl "https://github.com/a/b")⟩] := by
  decide

/-- C10: the exports of variant VA leave the whole application state —
in particular the module-level currentSVG and the diagram container —
exactly as they found it (save appends an anchor to document.body and
removes it again); only render reassigns those fields. -/
theorem c10_exports_preserve_state (raster : String → String)
    (st : AppState) :
    (VA.downloadSVG st).1 = st ∧ (VA.downloadPNG raster st).1 = st := by
  unfold VA.downloadSVG VA.downloadPNG VA.save
  rcases st with ⟨cur, dia, stat, bod⟩
  cases cur <;> simp

end ArchRepo
